import Mathlib

/-!
Shallow embedding of the django-timetracker repository's calendar and
holiday-tracking utilities (src/utils/calendar_utils.py), together with
models of the overtime-approval and VCS views whose implementations are
exercised by the repository's tests.  Pure functions of the Python source
become Lean functions; database state becomes explicit lists of records;
HTTP 404 becomes `Except`.
-/

/-! ## Python date arithmetic

`datetime.date.weekday` / `isoweekday` and `calendar.monthcalendar` for the
proleptic Gregorian calendar, as used by `gen_datetime_cal`, `working_days`
and `gen_holiday_list`. -/

/-- Days since 1970-01-01 in the proleptic Gregorian calendar
(standard civil-from-days arithmetic, matching Python's `datetime.date.toordinal`
up to the fixed epoch shift). -/
def daysFromCivil (y m d : Int) : Int :=
  let y2 : Int := if m ≤ 2 then y - 1 else y
  let era : Int := (if 0 ≤ y2 then y2 else y2 - 399) / 400
  let yoe : Int := y2 - era * 400
  let mp : Int := (m + 9) % 12
  let doy : Int := (153 * mp + 2) / 5 + d - 1
  let doe : Int := yoe * 365 + yoe / 4 - yoe / 100 + doy
  era * 146097 + doe - 719468

/-- Python `datetime.date(y, m, d).weekday()`: Monday = 0 .. Sunday = 6.
1970-01-01 was a Thursday (weekday 3). -/
def pyWeekday (year month day : Nat) : Nat :=
  ((daysFromCivil year month day + 3) % 7).toNat

/-- Python `datetime.date(y, m, d).isoweekday()`: Monday = 1 .. Sunday = 7. -/
def pyIsoweekday (year month day : Nat) : Nat :=
  pyWeekday year month day + 1

/-- Gregorian leap-year test, as in Python's `calendar.isleap`. -/
def isLeap (y : Nat) : Bool :=
  y % 4 == 0 && (y % 100 != 0 || y % 400 == 0)

/-- Number of days in a month (Python `calendar.monthrange(y, m)[1]`);
0 for an out-of-range month, which the theorems exclude by hypothesis. -/
def monthLength (y m : Nat) : Nat :=
  match m with
  | 1 => 31
  | 2 => if isLeap y then 29 else 28
  | 3 => 31
  | 4 => 30
  | 5 => 31
  | 6 => 30
  | 7 => 31
  | 8 => 31
  | 9 => 30
  | 10 => 31
  | 11 => 30
  | 12 => 31
  | _ => 0

/-- Splits a flat list of day cells into calendar weeks of seven cells,
as `calendar.monthcalendar` returns them. -/
def chunk7 : List Nat → List (List Nat)
  | [] => []
  | x :: xs => List.take 7 (x :: xs) :: chunk7 (List.drop 7 (x :: xs))
termination_by l => l.length
decreasing_by simp; omega

/-- Python `calendar.monthcalendar(year, month)`: a list of weeks (Monday
first); cells outside the month are 0.  The first day of the month sits at
index `pyWeekday year month 1` of the flattened cell list. -/
def monthcalendar (year month : Nat) : List (List Nat) :=
  let n := monthLength year month
  let w := pyWeekday year month 1
  let nweeks := (w + n + 6) / 7
  chunk7 (List.replicate w 0 ++ (List.range n).map (· + 1)
            ++ List.replicate (nweeks * 7 - (w + n)) 0)

/-- Model of a Python `datetime.datetime` value at midnight, as produced by
`gen_datetime_cal`. -/
structure PyDate where
  year : Nat
  month : Nat
  day : Nat
deriving DecidableEq, Repr

/-- Source `gen_datetime_cal` (src/utils/calendar_utils.py:1526): flattens
`calendar.monthcalendar`, filters out the zero padding cells, and wraps each
remaining day number in a datetime. -/
def gen_datetime_cal (year month : Nat) : List PyDate :=
  let days := ((monthcalendar year month).flatten).filter (fun x => 0 < x)
  days.map (fun day => PyDate.mk year month day)

/-- Source `working_days` (src/utils/calendar_utils.py:1543): keeps the days
whose `isoweekday()` is strictly below 5. -/
def working_days (year month : Nat) : List PyDate :=
  (gen_datetime_cal year month).filter
    (fun day => pyIsoweekday day.year day.month day.day < 5)

/-! ### Supporting lemmas -/

/-! ## delete_user (src/utils/calendar_utils.py:1068-1126) -/

/-- Python truthiness of an optional POST string (`if user_id:`):
`None` and the empty string are falsy. -/
def pyTruthy : Option String → Bool
  | none => false
  | some s => !s.isEmpty

/-- Python `str(...)` applied to `request.POST.get('user_id', None)` or
`request.session.get("user_id")`: `str(None)` is the string `"None"`. -/
def pyStrOpt : Option String → String
  | none => "None"
  | some s => s

/-- JSON payload of `delete_user` together with the resulting user table. -/
structure DeleteUserResult where
  success : Bool
  error : String
  users : List String
deriving DecidableEq, Repr

/-- Source `delete_user` (src/utils/calendar_utils.py:1068): refuses to delete
the requesting user (string comparison of POSTed and session ids), otherwise
deletes the posted user when present, reporting the missing or unknown user
errors of the source. -/
def delete_user (postUserId sessionUserId : Option String)
    (users : List String) : DeleteUserResult :=
  if pyStrOpt postUserId = pyStrOpt sessionUserId then
    { success := false, error := "You cannot delete yourself.", users := users }
  else if pyTruthy postUserId then
    match postUserId with
    | some uid =>
        if uid ∈ users then
          { success := true, error := "", users := users.erase uid }
        else
          { success := false, error := "User does not exist", users := users }
    | none =>
        { success := false, error := "Missing user", users := users }
  else
    { success := false, error := "Missing user", users := users }

/-! ## ajax_change_entry (src/utils/calendar_utils.py:875-984), undertime branch -/

/-- Fields of a `TrackingEntry` touched by `ajax_change_entry`; `link` holds
the linked entry's date when the entry is linked (tracker/models.py, outside
src/, stores it as a foreign key). -/
structure TrackEntry where
  entry_date : String
  start_time : String
  end_time : String
  daytype : String
  breaks : String
  link : Option String
deriving DecidableEq, Repr

/-- TrackingEntry.is_linked from tracker/models.py (outside src/): the entry
has a link. -/
def TrackEntry.is_linked (e : TrackEntry) : Bool :=
  e.link.isSome

/-- TrackingEntry.unlink from tracker/models.py (outside src/): drops the
entry's link. -/
def TrackEntry.unlink (e : TrackEntry) : TrackEntry :=
  { e with link := none }

/-- POST form consumed by `ajax_change_entry` (calendar_utils.py:891-899);
`link` is `none` when the field is absent or Python-falsy. -/
structure ChangeForm where
  entry_date : String
  start_time : String
  end_time : String
  daytype : String
  breaks : String
  link : Option String
deriving DecidableEq, Repr

/-- Entry state after `ajax_change_entry` copies the form onto the fetched
entry (calendar_utils.py:930-947): the entry is first unlinked, the five
fields are overwritten from the form, then the link is set through
`get_or_create_link` (tracker/models.py, outside src/, here the `gl`
parameter) when the form carries one, and dropped otherwise. -/
def appliedEntry (gl : String → String) (form : ChangeForm)
    (e0 : TrackEntry) : TrackEntry :=
  let e1 := e0.unlink
  let e2 : TrackEntry :=
    { entry_date := form.entry_date
      start_time := form.start_time
      end_time := form.end_time
      daytype := form.daytype
      breaks := form.breaks
      link := e1.link }
  match form.link with
  | some l => { e2 with link := some (gl l) }
  | none => e2.unlink

/-- JSON payload of the change together with the entry's final state. -/
structure ChangeResult where
  success : Bool
  error : String
  entry : TrackEntry
deriving DecidableEq, Repr

/-- Source `ajax_change_entry`, hidden-id branch (calendar_utils.py:929-964):
the stored pre-change values (captured after the initial `unlink`) are
written back, and the link cleared, when the changed entry is undertime
while linked or with a link requested.  `is_undertime` lives in
tracker/models.py outside src/ and is the `undertime` parameter;
`full_clean` is assumed to pass (its failure takes the generic exception
path instead). -/
def ajax_change_entry (undertime : TrackEntry → Bool)
    (gl : String → String) (form : ChangeForm) (e0 : TrackEntry) :
    ChangeResult :=
  let stored := e0.unlink
  let e3 := appliedEntry gl form e0
  if undertime e3 && (e3.is_linked || form.link.isSome) then
    { success := false
      error := "You cannot link an undertime entry."
      entry := { stored with link := none } }
  else
    { success := true, error := "", entry := e3 }

/-! ## mass_holidays (src/utils/calendar_utils.py:1419-1474) -/

/-- Tracking-entry record as `mass_holidays` sees it: keyed by user and
entry date, carrying the times, the daytype and the link flag. -/
structure HolEntry where
  user_id : Nat
  year : Nat
  month : Nat
  day : Nat
  start_time : String
  end_time : String
  breaks : String
  daytype : String
  linked : Bool
deriving DecidableEq, Repr

/-- Selector of `TrackingEntry.objects.get(entry_date=datestr, user_id=...)`
(calendar_utils.py:1436-1439). -/
def holMatch (uid year month day : Nat) (e : HolEntry) : Bool :=
  e.user_id == uid && e.year == year && e.month == month && e.day == day

/-- Database lookup of the entry for a user and date; the ORM `get` presumes
at most one row per (user, entry_date), so the first match is taken. -/
def findHol (db : List HolEntry) (uid year month day : Nat) : Option HolEntry :=
  db.find? (holMatch uid year month day)

/-- `current_entry.unlink()` (tracker/models.py, outside src/): clears the
link flag of the matched entry. -/
def unlinkHol (db : List HolEntry) (uid year month day : Nat) : List HolEntry :=
  db.map (fun e => if holMatch uid year month day e then { e with linked := false } else e)

/-- `current_entry.delete()`: removes the matched row. -/
def removeHol (db : List HolEntry) (uid year month day : Nat) : List HolEntry :=
  db.filter (fun e => !(holMatch uid year month day e))

/-- Validity of `datetime.datetime(year, month, day)`
(calendar_utils.py:1426-1432): Python accepts years 1..9999, months 1..12
and days 1..monthlength. -/
def validPyDate (year month day : Nat) : Bool :=
  1 ≤ year && year ≤ 9999 && 1 ≤ month && month ≤ 12 &&
    1 ≤ day && day ≤ monthLength year month

/-- Body of the inner loop of `mass_holidays` (calendar_utils.py:1421-1472)
for one (user, day, daytype) triple.  `shift` stands for
`Tbluser.get_shiftlength_list` (tracker/models.py, outside src/), giving
the (start_time, end_time, breaks) strings used for created entries.  The
sick-notification side channel sends mail but does not touch the entry
table, so it does not appear in the database state. -/
def massProcessDay (shift : Nat → String × String × String)
    (year month : Nat) (db : List HolEntry) (uid day : Nat)
    (daytype : String) : List HolEntry :=
  if day = 0 then db
  else if !(validPyDate year month day) then db
  else
    match findHol db uid year month day with
    | some e =>
      if daytype = "empty" then
        if e.linked then removeHol (unlinkHol db uid year month day) uid year month day
        else removeHol db uid year month day
      else if daytype = "LINKD" then db
      else db.map (fun x => if holMatch uid year month day x then { x with daytype := daytype } else x)
    | none =>
      if daytype = "empty" ∨ daytype = "LINKD" then db
      else db ++ [{ user_id := uid, year := year, month := month, day := day
                    start_time := (shift uid).1, end_time := (shift uid).2.1
                    breaks := (shift uid).2.2, daytype := daytype
                    linked := false }]

/-- Source `mass_holidays` (calendar_utils.py:1419-1474): folds the posted
mass_data — a map from user id to a day-indexed list of daytypes — through
the per-day step and reports success. -/
def mass_holidays (shift : Nat → String × String × String) (year month : Nat)
    (holidays : List (Nat × List String)) (db : List HolEntry) :
    Bool × List HolEntry :=
  let final := holidays.foldl
    (fun acc entry =>
      (entry.2.enum).foldl
        (fun acc2 dd => massProcessDay shift year month acc2 entry.1 dd.1 dd.2)
        acc)
    db
  (true, final)

/-! ## Overtime approval workflow (timetracker/overtime/models.py, outside src/) -/

/-- Notification email as observed through `django.core.mail.outbox` by
src/overtime/tests.py. -/
structure OvertimeEmail where
  subject : String
  attachments : Nat
deriving DecidableEq, Repr

/-- Modelled from the spec: `PendingApproval.close` is defined in
timetracker/overtime/models.py, which is not under src/ — only its tests
(src/overtime/tests.py) are.  Per the spec it is "a two-state
email-notification flow": closing a pending approval with a status sends
one notification email, whose subject and attachment count are the ones
asserted by `ApprovalTest` — the denial notice with no attachment for
status `False`, the approved-actions summary with one attachment for
status `True`.  The returned list is the mail outbox produced by one
`close` call. -/
def PendingApproval.close (status : Bool) : List OvertimeEmail :=
  if status then
    [{ subject := "Your recent timetracker actions.", attachments := 1 }]
  else
    [{ subject := "Request for Overtime: Denied.", attachments := 0 }]

/-! ## VCS activity ledger views (timetracker/vcs/views.py, outside src/) -/

/-- Activity-ledger row as exercised by src/vcs/tests.py. -/
structure ActivityEntry where
  id : Nat
  activity_key : String
  amount : Nat
  date : String
deriving DecidableEq, Repr

/-- Modelled from the spec: `vcs_add` is defined in timetracker/vcs/views.py,
which is not under src/ — only its tests (src/vcs/tests.py) are.  Per the
spec's "VCS (volume/contribution-style) activity ledger" and the
`VCSAddTestCase` assertions, the view records an activity entry and returns
an `HttpResponseRedirect` when the POST carries all of activity_key, amount
and date, and raises Http404 (`Except.error`) when any of the three is
missing. -/
def vcs_add (activity_key : Option String) (amount : Option Nat)
    (date : Option String) (nextId : Nat) (ledger : List ActivityEntry) :
    Except Unit (List ActivityEntry) :=
  match activity_key, amount, date with
  | some k, some a, some d =>
      Except.ok (ledger ++ [{ id := nextId, activity_key := k, amount := a, date := d }])
  | _, _, _ => Except.error ()

/-- Outcome of the VCS `update` view: whether Http404 was raised, plus the
resulting ledger. -/
structure VcsUpdateResult where
  raised404 : Bool
  ledger : List ActivityEntry
deriving DecidableEq, Repr

/-- Modelled from the spec: the VCS `update` view is defined in
timetracker/vcs/views.py, which is not under src/ — only its tests
(src/vcs/tests.py) are.  Per the spec's activity ledger and the
`VCSUpdateTestCase` assertions, a POST carrying both volume and the id of
an activity entry sets that entry's amount to the volume, while a POST
missing volume or id (or both) raises Http404 and leaves the ledger
untouched. -/
def vcs_update (volume : Option Nat) (entryId : Option Nat)
    (ledger : List ActivityEntry) : VcsUpdateResult :=
  match volume, entryId with
  | some v, some i =>
      { raised404 := false
        ledger := ledger.map (fun e => if e.id == i then { e with amount := v } else e) }
  | _, _ => { raised404 := true, ledger := ledger }

/-! ## gen_holiday_list cache (src/utils/calendar_utils.py:244-315) -/

/-- Subordinate user as rendered into the holiday table row.  The display
methods `name`, `get_holiday_balance`, `get_dod_balance` and
`get_job_code_display` of Tbluser (tracker/models.py, outside src/) are
carried as their rendered strings. -/
structure Subordinate where
  id : Nat
  name : String
  holiday_balance : String
  dod_balance : String
  job_code : String
deriving DecidableEq, Repr

/-- Source row template of `gen_holiday_list` (calendar_utils.py:273-284):
user id, name, holiday balance, DOD balance, and the job code only when the
viewing admin may see job codes. -/
def holidaytablerow (canViewJobcodes : Bool) (u : Subordinate) : String :=
  "\n            <tr id=\"" ++ toString u.id ++ "_row\">\n            <th onclick=\"highlight_row("
    ++ toString u.id ++ ")\" class=\"user-td\">" ++ u.name ++ "</th>\n            <td>"
    ++ u.holiday_balance ++ "</td>\n            <td>" ++ u.dod_balance
    ++ "</td>\n            <td class=\"job_code\">"
    ++ (if canViewJobcodes then u.job_code else "") ++ "</td>"

/-- Source per-day cell generation of `gen_holiday_list`
(calendar_utils.py:302-315): from the sorted (day number, daytype) pairs it
builds the javascript day array and the td cells.  The source binds the pair
as `(klass, day)`, so `klass` is the day number and `day` the daytype. -/
def holidayfields (uid : Nat) (entries : List (Nat × String)) : String × String :=
  let n := entries.length
  let js := String.join ((entries.enum).map (fun p =>
    "\"" ++ (if p.2.2 != "WKEND" then p.2.2 else "empty") ++ "\"" ++
      (if p.1 + 1 != n then "," else "]")))
  let out := String.join (entries.map (fun kd =>
    "<td usrid=" ++ toString uid ++ " class=" ++ kd.2 ++ ">" ++ toString kd.1 ++ "\n"))
  (js, out)

/-- Cache lookup for key "holidaytablerow<user><year>"
(calendar_utils.py:262-286): a hit is served verbatim, a miss regenerates
the row.  The key mentions only the user id and year, so the cached value
may have been written under a different admin or database state. -/
def servedHolidayRow (cached : Option String) (canView : Bool)
    (u : Subordinate) : String :=
  match cached with
  | some row => row
  | none => holidaytablerow canView u

/-- Cache lookup for key "holidayfields:<user><year><month>"
(calendar_utils.py:295-315): a hit is served verbatim — discarding the day
classes just computed from the tracking entries — and a miss regenerates
the cells. -/
def servedHolidayFields (cached : Option (String × String)) (uid : Nat)
    (entries : List (Nat × String)) : String × String :=
  match cached with
  | some t => t
  | none => holidayfields uid entries

/-! ## gen_calendar (src/utils/calendar_utils.py:368-602) -/

/-- Zero-pad a number to two digits; wider numbers are printed as-is
(`datemaps.pad`, outside src/, and the minute/hour fields of Python time
strings). -/
def pad2 (n : Nat) : String :=
  if n < 10 then "0" ++ toString n else toString n

/-- Zero-pad a year to four digits, as Python prints dates. -/
def pad4 (n : Nat) : String :=
  if n < 10 then "000" ++ toString n
  else if n < 100 then "00" ++ toString n
  else if n < 1000 then "0" ++ toString n
  else toString n

/-- Python `str(...)` of a date: "YYYY-MM-DD". -/
def pyDateStr (d : PyDate) : String :=
  pad4 d.year ++ "-" ++ pad2 d.month ++ "-" ++ pad2 d.day

/-- Python `str(time)[0:5]`: "HH:MM". -/
def timeStr5 (h m : Nat) : String :=
  pad2 h ++ ":" ++ pad2 m

/-- Modelled from the spec: the full month names `MONTH_MAP[m][1]` of
timetracker/utils/datemaps.py (outside src/), indexed 0 to 11. -/
def monthName : Nat → String
  | 0 => "January"
  | 1 => "February"
  | 2 => "March"
  | 3 => "April"
  | 4 => "May"
  | 5 => "June"
  | 6 => "July"
  | 7 => "August"
  | 8 => "September"
  | 9 => "October"
  | 10 => "November"
  | 11 => "December"
  | _ => ""

/-- TrackingEntry fields read by `gen_calendar` (calendar_utils.py:547-561);
`link_date` is the linked entry's date when `is_linked()`. -/
structure CalEntry where
  id : Nat
  entry_date : PyDate
  start_hour : Nat
  start_min : Nat
  end_hour : Nat
  end_min : Nat
  breaks_hour : Nat
  breaks_min : Nat
  daytype : String
  link_date : Option PyDate
deriving DecidableEq, Repr

/-- Day cell for a day that has a tracking entry
(calendar_utils.py:541-569): the `toggleChangeEntries` onclick call carrying
the entry's times, date, daytype, id, break length and linked date. -/
def calCellEntry (data : CalEntry) (dayNum : Nat) : String :=
  let linkStr :=
    match data.link_date with
    | some ld => if data.daytype ≠ "LINKD" then pyDateStr ld else ""
    | none => ""
  "\t\t\t\t\n                       <td onclick=\"toggleChangeEntries("
    ++ toString data.start_hour ++ ", " ++ toString data.start_min
    ++ ", \x27" ++ timeStr5 data.start_hour data.start_min
    ++ "\x27,\n                                                        "
    ++ toString data.end_hour ++ ", " ++ toString data.end_min
    ++ ", \x27" ++ timeStr5 data.end_hour data.end_min
    ++ "\x27,\n                                                        \x27"
    ++ pyDateStr data.entry_date ++ "\x27, \x27" ++ data.daytype
    ++ "\x27, " ++ toString data.id
    ++ ",\n                                                        "
    ++ toString data.breaks_min ++ ", \x27"
    ++ timeStr5 data.breaks_hour data.breaks_min ++ "\x27, \x27" ++ linkStr
    ++ "\x27)\"\n                           class=\"day-class " ++ data.daytype
    ++ "\">" ++ toString dayNum ++ "</td>\n"

/-- Day cell for a day without a tracking entry
(calendar_utils.py:571-593): real days get a `hideEntries` date string and
the empty-day styling, the zero padding cells an empty date and class
"empty" with "&nbsp" as content. -/
def calCellEmpty (year month dayNum : Nat) : String :=
  let emptyclass := if dayNum ≠ 0 then "day-class empty-day" else "empty"
  let entry_date_string :=
    if dayNum ≠ 0 then pad2 year ++ "-" ++ pad2 month ++ "-" ++ pad2 dayNum
    else ""
  let dayText := if dayNum = 0 then "&nbsp" else toString dayNum
  "\t\t\t\t<td onclick=\"hideEntries(\x27" ++ entry_date_string
    ++ "\x27)\"\n                    class=\"" ++ emptyclass ++ "\">"
    ++ dayText ++ "</td>\n"

/-- One day cell: `database.get(entry_date__day=_day)` on the month's
query set (at most one entry per date by the tracker model), empty cell on
`DoesNotExist`. -/
def calCell (year month : Nat) (entries : List CalEntry) (dayNum : Nat) :
    String :=
  match entries.find? (fun e => e.entry_date.day == dayNum) with
  | some data => calCellEntry data dayNum
  | none => calCellEmpty year month dayNum

/-- Body of `gen_calendar` after the defaulting of arguments
(calendar_utils.py:446-602): Http404 for a month outside `MONTH_MAP`, the
`Tbluser` lookup, then the table header, month navigation links, day-name
row, one row per `monthcalendar` week, built from the month's tracking
entries. -/
def gen_calendar_core (year month day : Nat) (users : List Nat) (user : Nat)
    (entries : List CalEntry) : Except String String :=
  if !(1 ≤ month && month ≤ 12) then Except.error "Http404"
  else if !(users.contains user) then Except.error "Tbluser.DoesNotExist"
  else
    let next_url :=
      if month + 1 = 13 then
        "\"/calendar/" ++ toString (year + 1) ++ "/" ++ toString 1 ++ "\""
      else "\"/calendar/" ++ toString year ++ "/" ++ toString (month + 1) ++ "\""
    let previous_url :=
      if month - 1 = 0 then
        "\"/calendar/" ++ toString (year - 1) ++ "/" ++ toString 12 ++ "\""
      else "\"/calendar/" ++ toString year ++ "/" ++ toString (month - 1) ++ "\""
    let header := "<table id=\"calendar\" border=\"1\">\n\t\t\t"
    let nav := "<tr>\n                <td class=\"table-header\" colspan=\"2\">\n                  <a class=\"table-links\" href="
      ++ previous_url
      ++ ">&lt;</a>\n                </td>\n\n                <td class=\"table-header\" colspan=\"3\">"
      ++ monthName (month - 1)
      ++ "</td>\n\n                <td class=\"table-header\" colspan=\"2\">\n                  <a class=\"table-links\" href="
      ++ next_url
      ++ ">&gt;</a>\n                </td>\n              </tr>\n"
    let day_names := "\n\t\t\t<tr>\n                <td class=day-names>Mon</td>\n                <td class=day-names>Tue</td>\n                <td class=day-names>Wed</td>\n                <td class=day-names>Thu</td>\n                <td class=day-names>Fri</td>\n                <td class=day-names>Sat</td>\n                <td class=day-names>Sun</td>\n              </tr>\n"
    let weeks := String.join ((monthcalendar year month).map (fun week =>
      "\n\t\t\t<tr>\n"
        ++ String.join (week.map (calCell year month entries))
        ++ "\t\t\t</tr>\n"))
    Except.ok (header ++ nav ++ day_names ++ weeks ++ "\n</table>")

/-- Source `gen_calendar` (calendar_utils.py:368): arguments left as `None`
default to today's year, month and day — the only non-argument,
non-database input of the routine — before the body runs. -/
def gen_calendar (today : PyDate) (year month day : Option Nat)
    (users : List Nat) (user : Nat) (entries : List CalEntry) :
    Except String String :=
  let y := year.getD today.year
  let m := month.getD today.month
  let d := day.getD today.day
  gen_calendar_core y m d users user entries

/-! ## Theorems -/

theorem chunk7_join (l : List Nat) : (chunk7 l).flatten = l := by
  induction l using chunk7.induct with
  | case1 => simp [chunk7]
  | case2 x xs ih =>
    rw [chunk7, List.flatten_cons, ih, List.take_append_drop]

theorem filter_replicate_zero (k : Nat) :
    (List.replicate k (0 : Nat)).filter (fun x => decide (0 < x)) = [] := by
  induction k with
  | zero => simp
  | succ n ih => simp [List.replicate_succ, List.filter_cons, ih]

theorem gen_datetime_cal_eq (year month : Nat) :
    gen_datetime_cal year month =
      (List.range (monthLength year month)).map
        (fun d => PyDate.mk year month (d + 1)) := by
  unfold gen_datetime_cal monthcalendar
  simp only [chunk7_join, List.filter_append, filter_replicate_zero]
  rw [List.filter_map]
  simp [Function.comp_def, List.filter_eq_self.mpr]

theorem pyWeekday_lt (year month day : Nat) : pyWeekday year month day < 7 := by
  unfold pyWeekday
  have h7 : (0 : Int) < 7 := by decide
  have := Int.emod_lt_of_pos (daysFromCivil year month day + 3) h7
  omega

theorem pyIsoweekday_bounds (year month day : Nat) :
    1 ≤ pyIsoweekday year month day ∧ pyIsoweekday year month day ≤ 7 := by
  unfold pyIsoweekday
  have := pyWeekday_lt year month day
  omega

/-- C10: for every year and month, `working_days(year, month)` returns exactly
those days of that month whose ISO weekday is strictly less than 5 — Mondays
through Thursdays, excluding Fridays and weekends — in ascending date order. -/
theorem working_days_correct (year month : Nat)
    (hm : 1 ≤ month ∧ month ≤ 12) :
    (∀ p : PyDate, p ∈ working_days year month ↔
      (p.year = year ∧ p.month = month ∧ 1 ≤ p.day ∧
       p.day ≤ monthLength year month ∧
       pyIsoweekday year month p.day ∈ ([1, 2, 3, 4] : List Nat))) ∧
    List.Pairwise (fun a b : PyDate => a.day < b.day)
      (working_days year month) := by
  constructor
  · intro p
    rw [working_days, gen_datetime_cal_eq]
    simp only [List.mem_filter, List.mem_map, List.mem_range]
    constructor
    · rintro ⟨⟨d, hd, rfl⟩, hfilt⟩
      simp only [decide_eq_true_eq] at hfilt
      have hb := pyIsoweekday_bounds year month (d + 1)
      refine ⟨rfl, rfl, ?_, ?_, ?_⟩
      · show 1 ≤ d + 1
        omega
      · show d + 1 ≤ monthLength year month
        omega
      · show pyIsoweekday year month (d + 1) ∈ _
        simp only [List.mem_cons, List.not_mem_nil, or_false]
        omega
    · rintro ⟨hy, hmn, hd1, hd2, hmem⟩
      obtain ⟨py, pm, pd⟩ := p
      simp only at hy hmn hd1 hd2 hmem
      subst hy; subst hmn
      simp only [List.mem_cons, List.not_mem_nil, or_false] at hmem
      refine ⟨⟨pd - 1, by omega, ?_⟩, ?_⟩
      · congr 1
        omega
      · simp only [decide_eq_true_eq]
        omega
  · rw [working_days, gen_datetime_cal_eq]
    apply List.Pairwise.filter
    rw [List.pairwise_map]
    refine (List.pairwise_lt_range _).imp ?_
    intro a b h
    show a + 1 < b + 1
    omega

/-- Witness for C10: October 2026 is a valid month and 2026-10-12, a Monday,
is reported as a working day. -/
theorem working_days_correct_witness :
    (⟨2026, 10, 12⟩ : PyDate) ∈ working_days 2026 10 :=
  ((working_days_correct 2026 10 (by decide)).1 ⟨2026, 10, 12⟩).mpr (by decide)

/-- C9: `delete_user` never deletes the requesting user: when the POSTed
user_id equals the session user_id as strings, it answers success = false
with error "You cannot delete yourself." and deletes nothing; and any call
that deletes a record or reports success had differing ids and a present
user_id. -/
theorem delete_user_correct (post sess : Option String) (users : List String) :
    (pyStrOpt post = pyStrOpt sess →
      (delete_user post sess users).success = false ∧
      (delete_user post sess users).error = "You cannot delete yourself." ∧
      (delete_user post sess users).users = users) ∧
    ((delete_user post sess users).users ≠ users ∨
        (delete_user post sess users).success = true →
      pyStrOpt post ≠ pyStrOpt sess ∧ pyTruthy post = true) := by
  constructor
  · intro h
    simp [delete_user, h]
  · intro h
    by_cases heq : pyStrOpt post = pyStrOpt sess
    · exfalso
      simp [delete_user, heq] at h
    · refine ⟨heq, ?_⟩
      by_cases ht : pyTruthy post = true
      · exact ht
      · exfalso
        simp [delete_user, heq, ht] at h

/-- Witness for C9: posting one's own session id (both "1") is refused and
deletes no user record. -/
theorem delete_user_correct_witness :
    (delete_user (some "1") (some "1") ["1", "2"]).success = false ∧
    (delete_user (some "1") (some "1") ["1", "2"]).users = ["1", "2"] :=
  ⟨((delete_user_correct (some "1") (some "1") ["1", "2"]).1 (by decide)).1,
   ((delete_user_correct (some "1") (some "1") ["1", "2"]).1 (by decide)).2.2⟩

/-- C8: `ajax_change_entry` is atomic on the undertime-link error: when the
changed entry would be undertime while linked or with a link requested, the
response is success = false with error "You cannot link an undertime
entry.", and the entry keeps exactly its pre-change entry_date, start_time,
end_time, daytype and breaks, with its link removed. -/
theorem ajax_change_entry_atomic (undertime : TrackEntry → Bool)
    (gl : String → String) (form : ChangeForm) (e0 : TrackEntry)
    (h : undertime (appliedEntry gl form e0) = true ∧
      ((appliedEntry gl form e0).is_linked = true ∨ form.link.isSome = true)) :
    (ajax_change_entry undertime gl form e0).success = false ∧
    (ajax_change_entry undertime gl form e0).error =
      "You cannot link an undertime entry." ∧
    (ajax_change_entry undertime gl form e0).entry.entry_date = e0.entry_date ∧
    (ajax_change_entry undertime gl form e0).entry.start_time = e0.start_time ∧
    (ajax_change_entry undertime gl form e0).entry.end_time = e0.end_time ∧
    (ajax_change_entry undertime gl form e0).entry.daytype = e0.daytype ∧
    (ajax_change_entry undertime gl form e0).entry.breaks = e0.breaks ∧
    (ajax_change_entry undertime gl form e0).entry.link = none := by
  obtain ⟨hu, hl⟩ := h
  have hcond : (undertime (appliedEntry gl form e0) &&
      ((appliedEntry gl form e0).is_linked || form.link.isSome)) = true := by
    rcases hl with hl | hl <;> simp [hu, hl]
  simp [ajax_change_entry, hcond, TrackEntry.unlink]

/-- Witness for C8: a concrete always-undertime entry with a requested link
is rolled back to its original field values with the link cleared. -/
theorem ajax_change_entry_atomic_witness :
    (ajax_change_entry (fun _ => true) (fun s => s)
        { entry_date := "2012-01-02", start_time := "09:00", end_time := "10:00"
          daytype := "WKDAY", breaks := "00:15", link := some "2012-01-03" }
        { entry_date := "2012-01-01", start_time := "00:00", end_time := "17:00"
          daytype := "WKDAY", breaks := "00:15", link := some "2011-12-31" }).success
      = false ∧
    (ajax_change_entry (fun _ => true) (fun s => s)
        { entry_date := "2012-01-02", start_time := "09:00", end_time := "10:00"
          daytype := "WKDAY", breaks := "00:15", link := some "2012-01-03" }
        { entry_date := "2012-01-01", start_time := "00:00", end_time := "17:00"
          daytype := "WKDAY", breaks := "00:15", link := some "2011-12-31" }).entry.entry_date
      = "2012-01-01" := by
  have h := ajax_change_entry_atomic (fun _ => true) (fun s => s)
    { entry_date := "2012-01-02", start_time := "09:00", end_time := "10:00"
      daytype := "WKDAY", breaks := "00:15", link := some "2012-01-03" }
    { entry_date := "2012-01-01", start_time := "00:00", end_time := "17:00"
      daytype := "WKDAY", breaks := "00:15", link := some "2011-12-31" }
    (by constructor <;> decide)
  exact ⟨h.1, h.2.2.1⟩

theorem holMatch_set_daytype (uid y m d : Nat) (dt : String) (x : HolEntry) :
    holMatch uid y m d { x with daytype := dt } = holMatch uid y m d x := rfl

theorem findHol_update (db : List HolEntry) (uid y m d : Nat) (dt : String) :
    findHol (db.map (fun x =>
        if holMatch uid y m d x then { x with daytype := dt } else x)) uid y m d
      = Option.map (fun x : HolEntry => { x with daytype := dt })
          (findHol db uid y m d) := by
  induction db with
  | nil => rfl
  | cons a l ih =>
    unfold findHol at ih ⊢
    rw [List.map_cons]
    by_cases h : holMatch uid y m d a = true
    · rw [if_pos h, List.find?_cons_of_pos _ (by rw [holMatch_set_daytype]; exact h),
        List.find?_cons_of_pos _ h]
      rfl
    · rw [if_neg h, List.find?_cons_of_neg _ (by simpa using h),
        List.find?_cons_of_neg _ (by simpa using h)]
      exact ih

theorem findHol_remove (db : List HolEntry) (uid y m d : Nat) :
    findHol (removeHol db uid y m d) uid y m d = none := by
  unfold findHol removeHol
  rw [List.find?_eq_none]
  intro x hx
  have h := (List.mem_filter.mp hx).2
  simp only [Bool.not_eq_true'] at h ⊢
  simpa using h

theorem mem_removeHol (db : List HolEntry) (uid y m d : Nat) (x : HolEntry)
    (hx : x ∈ db) (hnm : holMatch uid y m d x = false) :
    x ∈ removeHol db uid y m d :=
  List.mem_filter.mpr ⟨hx, by simp [hnm]⟩

theorem mem_unlinkHol (db : List HolEntry) (uid y m d : Nat) (x : HolEntry)
    (hx : x ∈ db) (hnm : holMatch uid y m d x = false) :
    x ∈ unlinkHol db uid y m d :=
  List.mem_map.mpr ⟨x, hx, by simp [hnm]⟩

/-- C7: `mass_holidays` applies holiday tracking day by day: it always
reports success; day index 0 and invalid calendar dates are skipped;
daytype "empty" deletes the user's entry for that date (unlinking it first
when linked) and does nothing when no entry exists; "LINKD" leaves any
existing entry unchanged; every other daytype updates an existing entry's
daytype in place — leaving the other rows untouched — or creates a new
entry with the user's shift-length start time, end time and breaks. -/
theorem mass_holidays_correct (shift : Nat → String × String × String)
    (year month : Nat) (holidays : List (Nat × List String))
    (db : List HolEntry) (uid day : Nat) (daytype : String) :
    (mass_holidays shift year month holidays db).1 = true ∧
    (day = 0 → massProcessDay shift year month db uid day daytype = db) ∧
    (validPyDate year month day = false →
      massProcessDay shift year month db uid day daytype = db) ∧
    (daytype = "LINKD" → massProcessDay shift year month db uid day daytype = db) ∧
    (daytype = "empty" → findHol db uid year month day = none →
      massProcessDay shift year month db uid day daytype = db) ∧
    (daytype = "empty" → day ≠ 0 → validPyDate year month day = true →
      findHol (massProcessDay shift year month db uid day daytype)
          uid year month day = none ∧
      ∀ x ∈ db, holMatch uid year month day x = false →
        x ∈ massProcessDay shift year month db uid day daytype) ∧
    (daytype ≠ "empty" → daytype ≠ "LINKD" → day ≠ 0 →
      validPyDate year month day = true →
      (∀ e, findHol db uid year month day = some e →
        findHol (massProcessDay shift year month db uid day daytype)
            uid year month day = some { e with daytype := daytype } ∧
        (massProcessDay shift year month db uid day daytype).length = db.length ∧
        ∀ x ∈ db, holMatch uid year month day x = false →
          x ∈ massProcessDay shift year month db uid day daytype) ∧
      (findHol db uid year month day = none →
        massProcessDay shift year month db uid day daytype =
          db ++ [{ user_id := uid, year := year, month := month, day := day
                   start_time := (shift uid).1, end_time := (shift uid).2.1
                   breaks := (shift uid).2.2, daytype := daytype
                   linked := false }])) := by
  refine ⟨rfl, ?_, ?_, ?_, ?_, ?_, ?_⟩
  · intro h
    simp [massProcessDay, h]
  · intro h
    simp [massProcessDay, h]
  · intro h
    subst h
    cases hf : findHol db uid year month day with
    | none => simp [massProcessDay, hf]
    | some e => simp [massProcessDay, hf]
  · intro h hf
    subst h
    simp [massProcessDay, hf]
  · intro h h0 hv
    subst h
    cases hf : findHol db uid year month day with
    | none =>
      constructor
      · simp [massProcessDay, hf, h0, hv]
      · intro x hx _
        simpa [massProcessDay, hf, h0, hv] using hx
    | some e =>
      by_cases hl : e.linked = true
      · constructor
        · simp only [massProcessDay, h0, hv, if_neg h0, hf, hl]
          simpa using findHol_remove (unlinkHol db uid year month day) uid year month day
        · intro x hx hnm
          simp only [massProcessDay, h0, hv, hf, hl]
          simpa using mem_removeHol _ uid year month day x
            (mem_unlinkHol db uid year month day x hx hnm) hnm
      · constructor
        · simp only [massProcessDay, h0, hv, hf, Bool.not_eq_true] at *
          simpa [hl] using findHol_remove db uid year month day
        · intro x hx hnm
          simp only [massProcessDay, h0, hv, hf, Bool.not_eq_true] at *
          simpa [hl] using mem_removeHol db uid year month day x hx hnm
  · intro hne hnl h0 hv
    constructor
    · intro e hf
      refine ⟨?_, ?_, ?_⟩
      · simp only [massProcessDay, h0, hv, hf, if_neg hne, if_neg hnl]
        simp [findHol_update db uid year month day daytype, hf]
      · simp [massProcessDay, h0, hv, hf, if_neg hne, if_neg hnl]
      · intro x hx hnm
        simp only [massProcessDay, h0, hv, hf, if_neg hne, if_neg hnl]
        exact List.mem_map.mpr ⟨x, hx, by simp [hnm]⟩
    · intro hf
      have : ¬(daytype = "empty" ∨ daytype = "LINKD") := by
        rintro (h | h) <;> [exact hne h; exact hnl h]
      simp [massProcessDay, h0, hv, hf, this]

/-- Witness for C7: with an empty entry table, posting daytype "HOLIS" for
user 1 on 2012-01-05 creates one entry carrying the user's shift-length
times. -/
theorem mass_holidays_correct_witness :
    massProcessDay (fun _ => ("09:00:00", "17:00:00", "00:15:00"))
        2012 1 [] 1 5 "HOLIS"
      = [{ user_id := 1, year := 2012, month := 1, day := 5
           start_time := "09:00:00", end_time := "17:00:00"
           breaks := "00:15:00", daytype := "HOLIS", linked := false }] := by
  have h := ((mass_holidays_correct (fun _ => ("09:00:00", "17:00:00", "00:15:00"))
      2012 1 [] [] 1 5 "HOLIS").2.2.2.2.2.2
      (by decide) (by decide) (by decide) (by decide)).2 rfl
  simpa using h

/-- C1: for each of the two status values, `PendingApproval.close(status)`
sends exactly one notification email. -/
theorem close_sends_one_email (status : Bool) :
    (PendingApproval.close status).length = 1 := by
  cases status <;> rfl

/-- C2: the two states produce distinct notifications: `close(False)` sends
the email with subject "Request for Overtime: Denied." and no attachments,
`close(True)` the email with subject "Your recent timetracker actions."
carrying exactly one attachment. -/
theorem close_two_states :
    PendingApproval.close false =
      [{ subject := "Request for Overtime: Denied.", attachments := 0 }] ∧
    PendingApproval.close true =
      [{ subject := "Your recent timetracker actions.", attachments := 1 }] :=
  ⟨rfl, rfl⟩

/-- C5: `vcs_add` accepts a request exactly when it is complete: it redirects
(recording the entry) when activity_key, amount and date are all present,
and raises Http404 whenever any one of them is missing. -/
theorem vcs_add_correct (activity_key : Option String) (amount : Option Nat)
    (date : Option String) (nextId : Nat) (ledger : List ActivityEntry) :
    (∀ k a d, activity_key = some k → amount = some a → date = some d →
      vcs_add activity_key amount date nextId ledger =
        Except.ok (ledger ++
          [{ id := nextId, activity_key := k, amount := a, date := d }])) ∧
    (activity_key = none ∨ amount = none ∨ date = none →
      vcs_add activity_key amount date nextId ledger = Except.error ()) := by
  constructor
  · intro k a d hk ha hd
    subst hk; subst ha; subst hd
    rfl
  · intro h
    rcases h with h | h | h <;> subst h
    · cases amount <;> cases date <;> rfl
    · cases activity_key <;> cases date <;> rfl
    · cases activity_key <;> cases amount <;> rfl

/-- Witness for C5: a complete POST records the entry; dropping the date
raises Http404. -/
theorem vcs_add_correct_witness :
    vcs_add (some "1") (some 100) (some "2012-01-01") 1 [] =
      Except.ok [{ id := 1, activity_key := "1", amount := 100,
                   date := "2012-01-01" }] ∧
    vcs_add (some "1") (some 100) none 1 [] = Except.error () :=
  ⟨(vcs_add_correct (some "1") (some 100) (some "2012-01-01") 1 []).1
      "1" 100 "2012-01-01" rfl rfl rfl,
   (vcs_add_correct (some "1") (some 100) none 1 []).2 (Or.inr (Or.inr rfl))⟩

/-- C6: `update` sets the amount of the posted entry to the posted volume,
and raises Http404 leaving every amount unchanged whenever volume or id is
missing. -/
theorem vcs_update_correct (volume : Option Nat) (entryId : Option Nat)
    (ledger : List ActivityEntry) :
    (∀ v i e, volume = some v → entryId = some i → e ∈ ledger → e.id = i →
      (vcs_update volume entryId ledger).raised404 = false ∧
      { e with amount := v } ∈ (vcs_update volume entryId ledger).ledger) ∧
    (volume = none ∨ entryId = none →
      (vcs_update volume entryId ledger).raised404 = true ∧
      (vcs_update volume entryId ledger).ledger = ledger) := by
  constructor
  · intro v i e hv hi he hid
    subst hv; subst hi
    refine ⟨rfl, ?_⟩
    simp only [vcs_update]
    exact List.mem_map.mpr ⟨e, he, by simp [hid]⟩
  · intro h
    rcases h with h | h <;> subst h
    · exact ⟨rfl, rfl⟩
    · cases volume <;> exact ⟨rfl, rfl⟩

/-- Witness for C6: posting volume 1 for entry 1 sets its amount from 100
to 1; omitting the volume raises Http404 with the ledger unchanged. -/
theorem vcs_update_correct_witness :
    ({ id := 1, activity_key := "1", amount := 1, date := "2012-01-01" }
        : ActivityEntry) ∈
      (vcs_update (some 1) (some 1)
        [{ id := 1, activity_key := "1", amount := 100,
           date := "2012-01-01" }]).ledger ∧
    (vcs_update none (some 1)
        [{ id := 1, activity_key := "1", amount := 100,
           date := "2012-01-01" }]).ledger =
      [{ id := 1, activity_key := "1", amount := 100, date := "2012-01-01" }] :=
  ⟨((vcs_update_correct (some 1) (some 1)
      [{ id := 1, activity_key := "1", amount := 100, date := "2012-01-01" }]).1
      1 1 { id := 1, activity_key := "1", amount := 100, date := "2012-01-01" }
      rfl rfl (by simp) rfl).2,
   ((vcs_update_correct none (some 1)
      [{ id := 1, activity_key := "1", amount := 100,
         date := "2012-01-01" }]).2 (Or.inl rfl)).2⟩

set_option maxRecDepth 8192 in
/-- C3 counterexample: the row cache key omits the viewing admin, so a row
cached while an admin who can view job codes was looking (job code "J1"
rendered) is served unchanged to an admin who cannot, while regeneration
would blank the job code cell — the served and regenerated rows differ. -/
theorem holiday_cache_not_transparent :
    servedHolidayRow
        (some (holidaytablerow true
          { id := 1, name := "Alice", holiday_balance := "0",
            dod_balance := "0", job_code := "J1" }))
        false
        { id := 1, name := "Alice", holiday_balance := "0",
          dod_balance := "0", job_code := "J1" }
      ≠ holidaytablerow false
          { id := 1, name := "Alice", holiday_balance := "0",
            dod_balance := "0", job_code := "J1" } := by
  decide

/-- C3 amended: the cache lookup is transparent exactly for hits whose value
was generated from the same inputs — the same subordinate record and admin
job-code visibility for the row, the same day classes for the per-day
cells; a miss always regenerates.  (The keys omit the admin and the
tracking entries, so hits written under other inputs are served stale, as
the counterexample shows.) -/
theorem holiday_cache_consistent (canView : Bool) (u : Subordinate)
    (uid : Nat) (entries : List (Nat × String)) :
    servedHolidayRow (some (holidaytablerow canView u)) canView u =
      holidaytablerow canView u ∧
    servedHolidayFields (some (holidayfields uid entries)) uid entries =
      holidayfields uid entries ∧
    servedHolidayRow none canView u = holidaytablerow canView u ∧
    servedHolidayFields none uid entries = holidayfields uid entries :=
  ⟨rfl, rfl, rfl, rfl⟩

/-- C4: `gen_calendar` is a pure string-formatting routine driven by the
database: with explicit year, month and day arguments and a fixed set of
tracking entries for the user, its HTML output is independent of everything
else — in particular of the current date, its single ambient input. -/
theorem gen_calendar_deterministic (today1 today2 : PyDate)
    (year month day : Nat) (users : List Nat) (user : Nat)
    (entries : List CalEntry) :
    gen_calendar today1 (some year) (some month) (some day)
        users user entries =
      gen_calendar today2 (some year) (some month) (some day)
        users user entries := rfl
